import Mathlib

/-!
Verification of the `InfiniteScroll` directive
(`src/dist/ionic-angular/es2015/components/infinite-scroll/infinite-scroll.js`).

The directive's algorithmic content — the threshold setter, the `_onScroll`
scroll handler, the deferred write-phase callback, and the
enable/disable/complete state machine — is embedded shallowly below.
JavaScript numbers are modelled as rationals extended with `NaN` (`JSNum`);
neither infinities nor negative zero arise on the code paths the claims
touch, so they are not modelled.  DOM geometry reads (`scrollHeight`,
`scrollTop`, `contentHeight`, and the directive element's own
`scrollHeight`) are finite numbers supplied as inputs to `_onScroll`.
-/

/-- A JavaScript number as it occurs on the modelled code paths: either an
ordinary (finite) number, modelled as a rational, or `NaN`. -/
inductive JSNum where
  | nan : JSNum
  | num : ℚ → JSNum
deriving DecidableEq, Repr

/-- JavaScript `+`: `NaN` propagates through addition. -/
def JSNum.add : JSNum → JSNum → JSNum
  | JSNum.num a, JSNum.num b => JSNum.num (a + b)
  | _, _ => JSNum.nan

/-- JavaScript `-`: `NaN` propagates through subtraction. -/
def JSNum.sub : JSNum → JSNum → JSNum
  | JSNum.num a, JSNum.num b => JSNum.num (a - b)
  | _, _ => JSNum.nan

/-- JavaScript `*`: `NaN` propagates through multiplication. -/
def JSNum.mul : JSNum → JSNum → JSNum
  | JSNum.num a, JSNum.num b => JSNum.num (a * b)
  | _, _ => JSNum.nan

/-- JavaScript division by the literal `100` (the only division in the
source, in the threshold setter): `NaN` propagates. -/
def JSNum.div100 : JSNum → JSNum
  | JSNum.num a => JSNum.num (a / 100)
  | JSNum.nan => JSNum.nan

/-- JavaScript `<`: any comparison involving `NaN` is `false`. -/
def JSNum.lt : JSNum → JSNum → Bool
  | JSNum.num a, JSNum.num b => decide (a < b)
  | _, _ => false

/-- JavaScript truthiness of a number: `0` and `NaN` are falsy, every other
number is truthy. -/
def JSNum.truthy : JSNum → Bool
  | JSNum.num a => decide (a ≠ 0)
  | JSNum.nan => false

/-- The three values of `this.state`
(`STATE_ENABLED`, `STATE_DISABLED`, `STATE_LOADING`, lines 330-332). -/
inductive ScrollState where
  | enabled : ScrollState
  | disabled : ScrollState
  | loading : ScrollState
deriving DecidableEq, Repr

/-- The record returned by `this._content.getContentDimensions()`
(used at line 182): the fields `_onScroll` reads from it. -/
structure ContentDimensions where
  scrollHeight : ℚ
  scrollTop : ℚ
  contentHeight : ℚ
deriving DecidableEq, Repr

/-- One scroll event as `_onScroll` observes it: the event's `timeStamp`
together with the two DOM reads the handler performs — the directive
element's own `scrollHeight` (`this._elementRef.nativeElement.scrollHeight`,
line 176, called `infiniteHeight` there) and the content dimensions
(line 182). -/
structure ScrollEv where
  timeStamp : ℚ
  infiniteHeight : ℚ
  dims : ContentDimensions
deriving DecidableEq, Repr

/-- The mutable fields of the `InfiniteScroll` directive that its logic
reads or writes.  `_thr` (the raw threshold string) only feeds the
untouched `threshold` getter and `_highestY` is written once in the
constructor and never read, so neither is modelled.  `_scLsn` is `true` when
the subscription handle is non-null; `subCount` models the environment: the
number of live subscriptions the directive has installed on
`_content.ionScroll` (a fresh one is created at line 242, `unsubscribe` at
line 248 removes the one the handle points to). -/
structure InfiniteScroll where
  state : ScrollState
  _lastCheck : ℚ
  _thrPx : JSNum
  _thrPc : JSNum
  _init : Bool
  _scLsn : Bool
  subCount : Nat
deriving DecidableEq, Repr

/-- The constructor's field initialisation (lines 104-113):
`_lastCheck = 0`, `_thrPx = 0`, `_thrPc = 0.15`, `_init = false`,
`state = STATE_ENABLED`, no subscription yet. -/
def InfiniteScroll.initial : InfiniteScroll :=
  { state := ScrollState.enabled
    _lastCheck := 0
    _thrPx := JSNum.num 0
    _thrPc := JSNum.num (15 / 100)
    _init := false
    _scLsn := false
    subCount := 0 }

/-- The `threshold` setter (lines 141-151).  The string argument `val`
enters the computation only through `val.indexOf('%') > -1` (here the
Boolean `hasPercent`) and `parseFloat(val)` (here `parsed`, which is
`JSNum.nan` exactly when `val` does not parse to a number); the assignment
`this._thr = val` feeds only the getter and is omitted.  With a percent
sign: `_thrPx = 0`, `_thrPc = parseFloat(val) / 100`; otherwise
`_thrPx = parseFloat(val)`, `_thrPc = 0`. -/
def InfiniteScroll.setThreshold (s : InfiniteScroll) (hasPercent : Bool)
    (parsed : JSNum) : InfiniteScroll :=
  if hasPercent then
    { s with _thrPx := JSNum.num 0, _thrPc := parsed.div100 }
  else
    { s with _thrPx := parsed, _thrPc := JSNum.num 0 }

/-- The `reloadY` computation of `_onScroll` (lines 183-189):
`reloadY = d.contentHeight`, then `reloadY += reloadY * this._thrPc` when
`this._thrPc` is truthy, else `reloadY += this._thrPx`. -/
def InfiniteScroll.reloadY (s : InfiniteScroll) (ev : ScrollEv) : JSNum :=
  if s._thrPc.truthy then
    (JSNum.num ev.dims.contentHeight).add
      ((JSNum.num ev.dims.contentHeight).mul s._thrPc)
  else
    (JSNum.num ev.dims.contentHeight).add s._thrPx

/-- The `distanceFromInfinite` computation of `_onScroll` (line 191):
`((d.scrollHeight - infiniteHeight) - d.scrollTop) - reloadY`, where
`infiniteHeight` is the directive element's own `scrollHeight`. -/
def InfiniteScroll.distanceFromInfinite (s : InfiniteScroll)
    (ev : ScrollEv) : JSNum :=
  (((JSNum.num ev.dims.scrollHeight).sub (JSNum.num ev.infiniteHeight)).sub
    (JSNum.num ev.dims.scrollTop)).sub (s.reloadY ev)

/-- The `_onScroll` handler (lines 166-205).  Returns the updated fields
together with the handler's numeric return code: `1` when suppressed by
`state` being `loading` or `disabled`, `2` when throttled
(`_lastCheck + 32 > ev.timeStamp`), `3` when the element's own
`scrollHeight` is falsy (the no-geometry guard), `5` when the threshold is
crossed (`distanceFromInfinite < 0`) — this is exactly the branch that
schedules the deferred write-phase callback `deferredWrite` via
`this._dom.write` — and `6` otherwise.  Note `_lastCheck` is updated
(line 174) before the no-geometry guard runs. -/
def InfiniteScroll._onScroll (s : InfiniteScroll) (ev : ScrollEv) :
    InfiniteScroll × Nat :=
  if s.state = ScrollState.loading ∨ s.state = ScrollState.disabled then
    (s, 1)
  else if s._lastCheck + 32 > ev.timeStamp then
    (s, 2)
  else
    let s1 := { s with _lastCheck := ev.timeStamp }
    if ev.infiniteHeight = 0 then
      (s1, 3)
    else if (s1.distanceFromInfinite ev).lt (JSNum.num 0) then
      (s1, 5)
    else
      (s1, 6)

/-- The deferred write-phase callback scheduled at lines 194-201 (the
`_zone.run` wrapper only re-enters the change-detection zone and is the
identity on the modelled fields): re-check `state`; if it is still neither
`loading` nor `disabled`, set `state = STATE_LOADING` and emit
`ionInfinite` (the returned Boolean is `true` exactly when the event was
emitted). -/
def InfiniteScroll.deferredWrite (s : InfiniteScroll) :
    InfiniteScroll × Bool :=
  if s.state ≠ ScrollState.loading ∧ s.state ≠ ScrollState.disabled then
    ({ s with state := ScrollState.loading }, true)
  else
    (s, false)

/-- `complete()` (lines 217-219): `this.state = STATE_ENABLED`. -/
def InfiniteScroll.complete (s : InfiniteScroll) : InfiniteScroll :=
  { s with state := ScrollState.enabled }

/-- `_setListeners(shouldListen)` (lines 238-252): only acts once `_init`
is set; subscribing is guarded by `!this._scLsn`, unsubscribing releases
the held handle (if any) and nulls it. -/
def InfiniteScroll._setListeners (s : InfiniteScroll) (shouldListen : Bool) :
    InfiniteScroll :=
  if s._init then
    if shouldListen then
      if s._scLsn then s
      else { s with _scLsn := true, subCount := s.subCount + 1 }
    else
      { s with _scLsn := false
               subCount := if s._scLsn then s.subCount - 1 else s.subCount }
  else s

/-- `enable(shouldEnable)` (lines 230-233): set `state` to enabled or
disabled, then re-evaluate the listeners. -/
def InfiniteScroll.enable (s : InfiniteScroll) (shouldEnable : Bool) :
    InfiniteScroll :=
  InfiniteScroll._setListeners
    { s with state := if shouldEnable then ScrollState.enabled
                      else ScrollState.disabled }
    shouldEnable

/-- `ngAfterContentInit()` (lines 256-259): mark `_init = true`, then
install listeners when `state` is not disabled. -/
def InfiniteScroll.ngAfterContentInit (s : InfiniteScroll) : InfiniteScroll :=
  InfiniteScroll._setListeners { s with _init := true }
    (decide (s.state ≠ ScrollState.disabled))

/-- `ngOnDestroy()` (lines 263-265): tear the listeners down. -/
def InfiniteScroll.ngOnDestroy (s : InfiniteScroll) : InfiniteScroll :=
  s._setListeners false

/-- Deliver a sequence of scroll events to `_onScroll` in order, collecting
the return codes; code `5` in the trace marks exactly the samples that
scheduled a deferred notification. -/
def InfiniteScroll.runScrolls (s : InfiniteScroll) :
    List ScrollEv → InfiniteScroll × List Nat
  | [] => (s, [])
  | ev :: evs =>
    let r := s._onScroll ev
    let rest := r.1.runScrolls evs
    (rest.1, r.2 :: rest.2)

/-- Modelled from the spec: the spec's step-5 formula
`distanceFromEnd = (totalScrollHeight - contentHeight - currentScrollOffset)
- reloadY`, reading `contentHeight` from the metrics record
(`getContentDimensions`), as the spec's Viewport contract defines it.  This
definition follows the spec's words, for comparison with the source's
`distanceFromInfinite`, which subtracts the directive element's own
`scrollHeight` instead. -/
def specDistanceFromEnd (s : InfiniteScroll) (ev : ScrollEv) : JSNum :=
  (((JSNum.num ev.dims.scrollHeight).sub
      (JSNum.num ev.dims.contentHeight)).sub
    (JSNum.num ev.dims.scrollTop)).sub (s.reloadY ev)

/-! Helper lemmas about `JSNum` and field preservation. -/

theorem JSNum.add_nan (x : JSNum) : x.add JSNum.nan = JSNum.nan := by
  cases x <;> rfl

theorem JSNum.sub_nan (x : JSNum) : x.sub JSNum.nan = JSNum.nan := by
  cases x <;> rfl

theorem JSNum.nan_lt (y : JSNum) : JSNum.nan.lt y = false := by
  cases y <;> rfl

theorem InfiniteScroll.onScroll_state (s : InfiniteScroll) (ev : ScrollEv) :
    (s._onScroll ev).1.state = s.state := by
  simp only [InfiniteScroll._onScroll]
  split_ifs <;> rfl

theorem InfiniteScroll.onScroll_thrPx (s : InfiniteScroll) (ev : ScrollEv) :
    (s._onScroll ev).1._thrPx = s._thrPx := by
  simp only [InfiniteScroll._onScroll]
  split_ifs <;> rfl

theorem InfiniteScroll.onScroll_thrPc (s : InfiniteScroll) (ev : ScrollEv) :
    (s._onScroll ev).1._thrPc = s._thrPc := by
  simp only [InfiniteScroll._onScroll]
  split_ifs <;> rfl

theorem InfiniteScroll.onScroll_pass (s : InfiniteScroll) (ev : ScrollEv)
    (h1 : s.state ≠ ScrollState.loading) (h2 : s.state ≠ ScrollState.disabled)
    (h3 : s._lastCheck + 32 ≤ ev.timeStamp) :
    (s._onScroll ev).1 = { s with _lastCheck := ev.timeStamp } := by
  simp only [InfiniteScroll._onScroll, h1, h2, or_self, if_false, not_lt.mpr h3,
    if_neg, or_false, false_or]
  split_ifs <;> rfl

theorem InfiniteScroll.setListeners_state (s : InfiniteScroll) (b : Bool) :
    (s._setListeners b).state = s.state := by
  simp only [InfiniteScroll._setListeners]
  split_ifs <;> rfl

/-- C4: for every scroll sample arriving while `state` is `loading` or
`disabled`, `_onScroll` is a no-op returning code 1: the fields are
unchanged and no deferred notification (code 5) is scheduled, regardless of
the sample's geometry or timestamp. -/
theorem c4_suppressed_states (s : InfiniteScroll) (ev : ScrollEv)
    (h : s.state = ScrollState.loading ∨ s.state = ScrollState.disabled) :
    s._onScroll ev = (s, 1) := by
  simp [InfiniteScroll._onScroll, h]

/-- Concrete sample used to instantiate C4. -/
def c4Ev : ScrollEv :=
  { timeStamp := 100, infiniteHeight := 1000,
    dims := { scrollHeight := 1200, scrollTop := 200, contentHeight := 1000 } }

theorem c4_suppressed_states_witness :
    ({ InfiniteScroll.initial with
        state := ScrollState.disabled })._onScroll c4Ev =
      ({ InfiniteScroll.initial with state := ScrollState.disabled }, 1) :=
  c4_suppressed_states _ _ (Or.inr rfl)

/-- C5: the deferred write-phase callback re-checks `state` at execution
time: if `state` has become `loading` or `disabled` it neither mutates the
state nor emits; otherwise it sets `state = loading` and emits.  In
particular a notification scheduled by a crossing (`_onScroll` code 5) that
is followed by `enable(false)` before the write phase runs is suppressed:
the callback emits nothing and changes nothing. -/
theorem c5_write_recheck :
    (∀ s : InfiniteScroll,
      s.state = ScrollState.loading ∨ s.state = ScrollState.disabled →
      s.deferredWrite = (s, false)) ∧
    (∀ s : InfiniteScroll,
      s.state ≠ ScrollState.loading → s.state ≠ ScrollState.disabled →
      s.deferredWrite = ({ s with state := ScrollState.loading }, true)) ∧
    (∀ (s : InfiniteScroll) (ev : ScrollEv), (s._onScroll ev).2 = 5 →
      ((s._onScroll ev).1.enable false).deferredWrite =
        ((s._onScroll ev).1.enable false, false)) := by
  refine ⟨?_, ?_, ?_⟩
  · intro s h
    rcases h with h | h <;> simp [InfiniteScroll.deferredWrite, h]
  · intro s h1 h2
    simp [InfiniteScroll.deferredWrite, h1, h2]
  · intro s ev _
    have hd : ((s._onScroll ev).1.enable false).state = ScrollState.disabled := by
      simp [InfiniteScroll.enable, InfiniteScroll.setListeners_state]
    simp [InfiniteScroll.deferredWrite, hd]

/-- Concrete crossing sample used to instantiate C5: `initial` passes all
guards and the distance `(1200 - 1000) - 500 - 1150 = -1450` is negative. -/
def c5Ev : ScrollEv :=
  { timeStamp := 64, infiniteHeight := 1000,
    dims := { scrollHeight := 1200, scrollTop := 500, contentHeight := 1000 } }

theorem c5_write_recheck_witness :
    (({ InfiniteScroll.initial with
         state := ScrollState.loading }).deferredWrite =
      ({ InfiniteScroll.initial with state := ScrollState.loading }, false)) ∧
    (InfiniteScroll.initial.deferredWrite =
      ({ InfiniteScroll.initial with state := ScrollState.loading }, true)) ∧
    (((InfiniteScroll.initial._onScroll c5Ev).1.enable false).deferredWrite =
      ((InfiniteScroll.initial._onScroll c5Ev).1.enable false, false)) := by
  refine ⟨c5_write_recheck.1 _ (Or.inl rfl),
          c5_write_recheck.2.1 _ (by decide) (by decide),
          c5_write_recheck.2.2 _ _ ?_⟩
  norm_num [InfiniteScroll._onScroll, InfiniteScroll.initial,
    InfiniteScroll.distanceFromInfinite, InfiniteScroll.reloadY,
    JSNum.truthy, JSNum.add, JSNum.sub, JSNum.mul, JSNum.lt, c5Ev]
  decide

/-- C6: a threshold set with a percent sign stores the fraction
`parseFloat(val)/100` in `_thrPc` and clears `_thrPx` to 0; one set without
a percent sign stores `parseFloat(val)` in `_thrPx` and clears `_thrPc` to
0; hence after every setter call (and initially) at least one of the two
mode fields is 0, so exactly one representation carries the threshold. -/
theorem c6_threshold_modes :
    (∀ (s : InfiniteScroll) (p : JSNum),
      (s.setThreshold true p)._thrPx = JSNum.num 0 ∧
      (s.setThreshold true p)._thrPc = p.div100) ∧
    (∀ (s : InfiniteScroll) (p : JSNum),
      (s.setThreshold false p)._thrPx = p ∧
      (s.setThreshold false p)._thrPc = JSNum.num 0) ∧
    (∀ (s : InfiniteScroll) (hp : Bool) (p : JSNum),
      (s.setThreshold hp p)._thrPx = JSNum.num 0 ∨
      (s.setThreshold hp p)._thrPc = JSNum.num 0) ∧
    InfiniteScroll.initial._thrPx = JSNum.num 0 := by
  refine ⟨fun s p => ⟨rfl, rfl⟩, fun s p => ⟨rfl, rfl⟩, fun s hp p => ?_, rfl⟩
  cases hp
  · exact Or.inr rfl
  · exact Or.inl rfl

/-- C10: `complete()` mutates only the `state` field — it sets `state` to
`enabled` from any state and leaves the subscription handle, subscription
count, threshold fields, throttle timestamp and `_init` untouched.
Consequently after `enable(false)` followed by `complete()` (given that a
held handle implies initialisation and the handle accounts for the live
subscriptions), `state` is `enabled` while no subscription is installed, so
no scroll event can reach `_onScroll` despite the trigger being enabled. -/
theorem c10_complete_frame :
    (∀ s : InfiniteScroll,
      s.complete.state = ScrollState.enabled ∧
      s.complete._lastCheck = s._lastCheck ∧
      s.complete._thrPx = s._thrPx ∧
      s.complete._thrPc = s._thrPc ∧
      s.complete._init = s._init ∧
      s.complete._scLsn = s._scLsn ∧
      s.complete.subCount = s.subCount) ∧
    (∀ s : InfiniteScroll, (s._scLsn = true → s._init = true) →
      s.subCount = (if s._scLsn then 1 else 0) →
      ((s.enable false).complete.state = ScrollState.enabled ∧
       (s.enable false).complete._scLsn = false ∧
       (s.enable false).complete.subCount = 0)) := by
  refine ⟨fun s => ⟨rfl, rfl, rfl, rfl, rfl, rfl, rfl⟩, fun s himp hacc => ?_⟩
  by_cases hi : s._init <;> by_cases hl : s._scLsn <;>
    simp_all [InfiniteScroll.enable, InfiniteScroll._setListeners,
      InfiniteScroll.complete]

theorem c10_complete_frame_witness :
    (({ InfiniteScroll.initial with
         _init := true, _scLsn := true, subCount := 1 }).enable
        false).complete.state = ScrollState.enabled ∧
    (({ InfiniteScroll.initial with
         _init := true, _scLsn := true, subCount := 1 }).enable
        false).complete._scLsn = false ∧
    (({ InfiniteScroll.initial with
         _init := true, _scLsn := true, subCount := 1 }).enable
        false).complete.subCount = 0 :=
  c10_complete_frame.2 _ (fun _ => rfl) rfl

/-- C7: a sample that passes the state guard and the throttle updates
`_lastCheck` to its own timestamp; a second sample arriving less than 32ms
after it is then rejected by the throttle with code 2, leaving every field
unchanged. -/
theorem c7_throttle (s : InfiniteScroll) (ev1 ev2 : ScrollEv)
    (h1 : s.state ≠ ScrollState.loading)
    (h2 : s.state ≠ ScrollState.disabled)
    (h3 : s._lastCheck + 32 ≤ ev1.timeStamp)
    (h4 : ev2.timeStamp < ev1.timeStamp + 32) :
    (s._onScroll ev1).1._lastCheck = ev1.timeStamp ∧
    (s._onScroll ev1).1._onScroll ev2 = ((s._onScroll ev1).1, 2) := by
  have hfst := InfiniteScroll.onScroll_pass s ev1 h1 h2 h3
  refine ⟨by rw [hfst], ?_⟩
  rw [hfst]
  have hstate : ({ s with _lastCheck := ev1.timeStamp } :
      InfiniteScroll).state = s.state := rfl
  simp [InfiniteScroll._onScroll, hstate, h1, h2, h4]

/-- Concrete samples used to instantiate C7: 60ms and then 80ms, 20ms
apart. -/
def c7Ev1 : ScrollEv :=
  { timeStamp := 60, infiniteHeight := 800,
    dims := { scrollHeight := 900, scrollTop := 10, contentHeight := 700 } }

/-- Second concrete sample for C7, 20ms after `c7Ev1`. -/
def c7Ev2 : ScrollEv :=
  { timeStamp := 80, infiniteHeight := 800,
    dims := { scrollHeight := 900, scrollTop := 40, contentHeight := 700 } }

theorem c7_throttle_witness :
    (InfiniteScroll.initial._onScroll c7Ev1).1._lastCheck = c7Ev1.timeStamp ∧
    (InfiniteScroll.initial._onScroll c7Ev1).1._onScroll c7Ev2 =
      ((InfiniteScroll.initial._onScroll c7Ev1).1, 2) :=
  c7_throttle InfiniteScroll.initial c7Ev1 c7Ev2 (by decide) (by decide)
    (by norm_num [InfiniteScroll.initial, c7Ev1])
    (by norm_num [c7Ev1, c7Ev2])

/-- C8: the crossing comparison is strictly negative.  For every sample
that reaches it (state guard, throttle and no-geometry guard passed), a
computed distance of exactly 0 yields code 6 (nothing scheduled), while a
distance of -1 — and in general any strictly negative distance — yields
code 5 (notification scheduled). -/
theorem c8_strict_boundary (s : InfiniteScroll) (ev : ScrollEv)
    (h1 : s.state ≠ ScrollState.loading)
    (h2 : s.state ≠ ScrollState.disabled)
    (h3 : s._lastCheck + 32 ≤ ev.timeStamp)
    (h5 : ev.infiniteHeight ≠ 0) :
    (s.distanceFromInfinite ev = JSNum.num 0 → (s._onScroll ev).2 = 6) ∧
    (s.distanceFromInfinite ev = JSNum.num (-1) → (s._onScroll ev).2 = 5) ∧
    ((s.distanceFromInfinite ev).lt (JSNum.num 0) = true →
      (s._onScroll ev).2 = 5) := by
  have hdist : ({ s with _lastCheck := ev.timeStamp } :
      InfiniteScroll).distanceFromInfinite ev = s.distanceFromInfinite ev := rfl
  refine ⟨fun h0 => ?_, fun hm1 => ?_, fun hneg => ?_⟩
  · simp [InfiniteScroll._onScroll, h1, h2, not_lt.mpr h3, h5, hdist, h0,
      JSNum.lt]
  · simp [InfiniteScroll._onScroll, h1, h2, not_lt.mpr h3, h5, hdist, hm1,
      JSNum.lt]
  · simp [InfiniteScroll._onScroll, h1, h2, not_lt.mpr h3, h5, hdist, hneg]

/-- Concrete sample used to instantiate C8 with distance exactly 0:
`reloadY = 1000 + 150 = 1150` and `(1400 - 200) - 50 - 1150 = 0`. -/
def c8EvZero : ScrollEv :=
  { timeStamp := 100, infiniteHeight := 200,
    dims := { scrollHeight := 1400, scrollTop := 50, contentHeight := 1000 } }

/-- Concrete sample used to instantiate C8 with distance exactly -1:
`(1400 - 200) - 51 - 1150 = -1`. -/
def c8EvNeg : ScrollEv :=
  { timeStamp := 100, infiniteHeight := 200,
    dims := { scrollHeight := 1400, scrollTop := 51, contentHeight := 1000 } }

theorem c8_strict_boundary_witness :
    (InfiniteScroll.initial._onScroll c8EvZero).2 = 6 ∧
    (InfiniteScroll.initial._onScroll c8EvNeg).2 = 5 := by
  constructor
  · exact (c8_strict_boundary InfiniteScroll.initial c8EvZero (by decide)
      (by decide) (by norm_num [InfiniteScroll.initial, c8EvZero])
      (by norm_num [c8EvZero])).1
      (by norm_num [InfiniteScroll.distanceFromInfinite,
        InfiniteScroll.reloadY, InfiniteScroll.initial, JSNum.truthy,
        JSNum.add, JSNum.sub, JSNum.mul, c8EvZero])
  · exact (c8_strict_boundary InfiniteScroll.initial c8EvNeg (by decide)
      (by decide) (by norm_num [InfiniteScroll.initial, c8EvNeg])
      (by norm_num [c8EvNeg])).2.1
      (by norm_num [InfiniteScroll.distanceFromInfinite,
        InfiniteScroll.reloadY, InfiniteScroll.initial, JSNum.truthy,
        JSNum.add, JSNum.sub, JSNum.mul, c8EvNeg])

/-- C9: calling `enable(true)` twice in a row when already enabled is
idempotent — the second call changes nothing, so the resulting fields equal
those after a single call — and, given that the held handle accounts for
the live subscriptions, at most one subscription exists afterwards. -/
theorem c9_enable_idempotent (s : InfiniteScroll)
    (_hstate : s.state = ScrollState.enabled)
    (hacc : s.subCount = if s._scLsn then 1 else 0) :
    (s.enable true).enable true = s.enable true ∧
    ((s.enable true).enable true).subCount ≤ 1 := by
  by_cases hi : s._init <;> by_cases hl : s._scLsn <;>
    simp_all [InfiniteScroll.enable, InfiniteScroll._setListeners]

theorem c9_enable_idempotent_witness :
    (({ InfiniteScroll.initial with _init := true }).enable true).enable true =
      ({ InfiniteScroll.initial with _init := true }).enable true ∧
    ((({ InfiniteScroll.initial with _init := true }).enable true).enable
      true).subCount ≤ 1 :=
  c9_enable_idempotent { InfiniteScroll.initial with _init := true } rfl rfl

/-- Concrete sample refuting C1's formula reading: `reloadY = 100 + 15 =
115`, the spec-side distance `(1200 - 100) - 300 - 115 = 685` is
non-negative, yet the handler schedules (code 5) because the source
subtracts the element's own `scrollHeight` (1000), giving
`(1200 - 1000) - 300 - 115 = -215`. -/
def c1CexEv : ScrollEv :=
  { timeStamp := 100, infiniteHeight := 1000,
    dims := { scrollHeight := 1200, scrollTop := 300, contentHeight := 100 } }

/-- C1 fails as stated: there is a sample for which the spec's
`distanceFromEnd`, computed from the metrics record's `contentHeight`, is
non-negative, yet a notification is scheduled (code 5) — so "schedules
exactly when `(totalScrollHeight - contentHeight - currentScrollOffset) -
reloadY < 0`" is false on the code. -/
theorem c1_counterexample :
    (specDistanceFromEnd InfiniteScroll.initial c1CexEv).lt (JSNum.num 0)
        = false ∧
    (InfiniteScroll.initial._onScroll c1CexEv).2 = 5 := by
  constructor
  · norm_num [specDistanceFromEnd, InfiniteScroll.reloadY,
      InfiniteScroll.initial, JSNum.truthy, JSNum.add, JSNum.sub, JSNum.mul,
      JSNum.lt, c1CexEv]
  · norm_num [InfiniteScroll._onScroll, InfiniteScroll.initial,
      InfiniteScroll.distanceFromInfinite, InfiniteScroll.reloadY,
      JSNum.truthy, JSNum.add, JSNum.sub, JSNum.mul, JSNum.lt, c1CexEv]
    decide

/-- Concrete scenario sample for C1 (amended): threshold `"15%"`,
`contentHeight = 1000`, `scrollHeight = 1200`, `scrollTop = 200`, element
`scrollHeight = 1000`. -/
def c1ScenEv : ScrollEv :=
  { timeStamp := 100, infiniteHeight := 1000,
    dims := { scrollHeight := 1200, scrollTop := 200, contentHeight := 1000 } }

/-- C1 (amended): past the state, throttle and geometry guards the trigger
computes `reloadY = metrics.contentHeight + (percentage mode ?
contentHeight * fraction : pixel distance)` and `distanceFromInfinite =
(totalScrollHeight - elementScrollHeight - currentScrollOffset) - reloadY`,
subtracting the directive element's own `scrollHeight` rather than
`metrics.contentHeight`, and schedules exactly when that distance is
strictly negative.  In the scenario — threshold `"15%"`, `contentHeight =
1000`, `scrollHeight = 1200`, `scrollTop = 200` and element `scrollHeight =
1000` — `reloadY = 1150`, the distance is `-1150`, the crossing is
scheduled (code 5), the write-phase callback sets `state = loading` and
emits exactly once, and an identical later sample is suppressed (code 1)
until `complete()` is called. -/
theorem c1_trigger_formula :
    (∀ (s : InfiniteScroll) (ev : ScrollEv),
      s.state ≠ ScrollState.loading → s.state ≠ ScrollState.disabled →
      s._lastCheck + 32 ≤ ev.timeStamp → ev.infiniteHeight ≠ 0 →
      ((s._onScroll ev).2 = 5 ↔
        (s.distanceFromInfinite ev).lt (JSNum.num 0) = true)) ∧
    ((InfiniteScroll.initial.setThreshold true (JSNum.num 15)).reloadY
        c1ScenEv = JSNum.num 1150 ∧
     (InfiniteScroll.initial.setThreshold true
        (JSNum.num 15)).distanceFromInfinite c1ScenEv = JSNum.num (-1150) ∧
     ((InfiniteScroll.initial.setThreshold true
        (JSNum.num 15))._onScroll c1ScenEv).2 = 5 ∧
     (((InfiniteScroll.initial.setThreshold true
        (JSNum.num 15))._onScroll c1ScenEv).1.deferredWrite).1.state =
          ScrollState.loading ∧
     (((InfiniteScroll.initial.setThreshold true
        (JSNum.num 15))._onScroll c1ScenEv).1.deferredWrite).2 = true ∧
     (((((InfiniteScroll.initial.setThreshold true
        (JSNum.num 15))._onScroll c1ScenEv).1.deferredWrite).1)._onScroll
          { c1ScenEv with timeStamp := 200 }).2 = 1) := by
  constructor
  · intro s ev h1 h2 h3 h4
    have hdist : ({ s with _lastCheck := ev.timeStamp } :
        InfiniteScroll).distanceFromInfinite ev =
          s.distanceFromInfinite ev := rfl
    simp only [InfiniteScroll._onScroll, h1, h2, or_self, if_false,
      not_lt.mpr h3, if_neg, h4, hdist]
    split_ifs with hc <;> simp [hc]
  · refine ⟨?_, ?_, ?_, ?_, ?_, ?_⟩ <;>
      norm_num [InfiniteScroll._onScroll, InfiniteScroll.setThreshold,
        InfiniteScroll.initial, InfiniteScroll.deferredWrite,
        InfiniteScroll.distanceFromInfinite, InfiniteScroll.reloadY,
        JSNum.truthy, JSNum.add, JSNum.sub, JSNum.mul, JSNum.lt,
        JSNum.div100, c1ScenEv] <;> decide

/-- Concrete sample used to instantiate C1 (amended): the guards pass and
the distance `(1500 - 300) - 100 - 920 = 180` is non-negative. -/
def c1PassEv : ScrollEv :=
  { timeStamp := 40, infiniteHeight := 300,
    dims := { scrollHeight := 1500, scrollTop := 100, contentHeight := 800 } }

theorem c1_trigger_formula_witness :
    (InfiniteScroll.initial._onScroll c1PassEv).2 = 5 ↔
      (InfiniteScroll.initial.distanceFromInfinite c1PassEv).lt (JSNum.num 0)
        = true :=
  c1_trigger_formula.1 InfiniteScroll.initial c1PassEv (by decide) (by decide)
    (by norm_num [InfiniteScroll.initial, c1PassEv]) (by norm_num [c1PassEv])

/-- Concrete sample refuting C2: `metrics.contentHeight = 0`, yet the
element's own `scrollHeight` is 1000, so the no-geometry guard passes;
`reloadY = 0 + 0 * 0.15 = 0` and the distance `(1200 - 1000) - 400 - 0 =
-200` is negative, so a notification is scheduled. -/
def c2CexEv : ScrollEv :=
  { timeStamp := 100, infiniteHeight := 1000,
    dims := { scrollHeight := 1200, scrollTop := 400, contentHeight := 0 } }

/-- C2 fails as stated: a sample whose metrics report `contentHeight = 0`
is not ignored — the handler schedules a notification (code 5), because
the no-geometry guard tests the element's own `scrollHeight`, not the
metrics record's `contentHeight`. -/
theorem c2_counterexample :
    c2CexEv.dims.contentHeight = 0 ∧
    (InfiniteScroll.initial._onScroll c2CexEv).2 = 5 := by
  constructor
  · norm_num [c2CexEv]
  · norm_num [InfiniteScroll._onScroll, InfiniteScroll.initial,
      InfiniteScroll.distanceFromInfinite, InfiniteScroll.reloadY,
      JSNum.truthy, JSNum.add, JSNum.sub, JSNum.mul, JSNum.lt, c2CexEv]
    decide

/-- C2 (amended): the quantity whose zero/absence makes `_onScroll` ignore
the sample is the directive element's own `scrollHeight` (`infiniteHeight`,
line 176), not the metrics record's `contentHeight`.  For every sample with
`infiniteHeight = 0`, no notification is scheduled (the result code is
never 5) and the only field the call may update is `_lastCheck`, regardless
of every other geometry value in the sample. -/
theorem c2_no_geometry_guard (s : InfiniteScroll) (ev : ScrollEv)
    (h : ev.infiniteHeight = 0) :
    (s._onScroll ev).2 ≠ 5 ∧
    ((s._onScroll ev).1 = s ∨
     (s._onScroll ev).1 = { s with _lastCheck := ev.timeStamp }) := by
  simp only [InfiniteScroll._onScroll, h]
  split_ifs <;> simp

/-- Concrete sample used to instantiate C2 (amended): zero element height,
arbitrary other geometry. -/
def c2ZeroEv : ScrollEv :=
  { timeStamp := 100, infiniteHeight := 0,
    dims := { scrollHeight := 5000, scrollTop := 4000, contentHeight := 700 } }

theorem c2_no_geometry_guard_witness :
    (InfiniteScroll.initial._onScroll c2ZeroEv).2 ≠ 5 ∧
    ((InfiniteScroll.initial._onScroll c2ZeroEv).1 = InfiniteScroll.initial ∨
     (InfiniteScroll.initial._onScroll c2ZeroEv).1 =
       { InfiniteScroll.initial with _lastCheck := c2ZeroEv.timeStamp }) :=
  c2_no_geometry_guard InfiniteScroll.initial c2ZeroEv rfl

/-- Single step of the C3 invariant: with `_thrPx = NaN` and `_thrPc = 0`
(the fields a malformed non-percent threshold leaves behind), `_onScroll`
never schedules — `_thrPc = 0` is falsy, so `reloadY = contentHeight + NaN
= NaN`, the distance is `NaN`, and `NaN < 0` is false — and both threshold
fields are preserved. -/
theorem InfiniteScroll.onScroll_nan_px (s : InfiniteScroll) (ev : ScrollEv)
    (hx : s._thrPx = JSNum.nan) (hc : s._thrPc = JSNum.num 0) :
    (s._onScroll ev).2 ≠ 5 ∧
    (s._onScroll ev).1._thrPx = JSNum.nan ∧
    (s._onScroll ev).1._thrPc = JSNum.num 0 := by
  have hre : s.reloadY ev = JSNum.nan := by
    simp [InfiniteScroll.reloadY, hc, hx, JSNum.truthy, JSNum.add_nan]
  have hdist : s.distanceFromInfinite ev = JSNum.nan := by
    simp [InfiniteScroll.distanceFromInfinite, hre, JSNum.sub_nan]
  have hdist1 : ({ s with _lastCheck := ev.timeStamp } :
      InfiniteScroll).distanceFromInfinite ev = JSNum.nan := hdist
  simp only [InfiniteScroll._onScroll]
  split_ifs <;> simp_all [JSNum.nan_lt]

/-- The C3 invariant over a whole trace: starting from `_thrPx = NaN`,
`_thrPc = 0`, no sample in any event sequence ever yields code 5. -/
theorem InfiniteScroll.runScrolls_nan_px (s : InfiniteScroll)
    (evs : List ScrollEv)
    (hx : s._thrPx = JSNum.nan) (hc : s._thrPc = JSNum.num 0) :
    5 ∉ (s.runScrolls evs).2 := by
  induction evs generalizing s with
  | nil => simp [InfiniteScroll.runScrolls]
  | cons ev evs ih =>
    have hstep := InfiniteScroll.onScroll_nan_px s ev hx hc
    simp only [InfiniteScroll.runScrolls, List.mem_cons]
    push_neg
    exact ⟨fun h => hstep.1 h.symm, ih _ hstep.2.1 hstep.2.2⟩

/-- Concrete sample refuting C3 for malformed strings containing `'%'`:
with `_thrPc = NaN` (falsy) the pixel branch adds the cleared `_thrPx = 0`,
so `reloadY = 600`, the distance `(1100 - 900) - 500 - 600 = -900` is
negative, and a notification is scheduled. -/
def c3CexEv : ScrollEv :=
  { timeStamp := 50, infiniteHeight := 900,
    dims := { scrollHeight := 1100, scrollTop := 500, contentHeight := 600 } }

/-- C3 fails as stated for malformed strings that contain `'%'`: after
`setThreshold` with `hasPercent = true` and `parseFloat = NaN` (e.g. the
string `"abc%"`), `_thrPc` is `NaN` as claimed, but `NaN` is falsy, so
`_onScroll` takes the pixel branch with the cleared `_thrPx = 0` and still
schedules a notification (code 5) — triggering is not disabled. -/
theorem c3_counterexample :
    (InfiniteScroll.initial.setThreshold true JSNum.nan)._thrPc =
        JSNum.nan ∧
    ((InfiniteScroll.initial.setThreshold true JSNum.nan)._onScroll
        c3CexEv).2 = 5 := by
  constructor
  · rfl
  · norm_num [InfiniteScroll._onScroll, InfiniteScroll.setThreshold,
      InfiniteScroll.initial, InfiniteScroll.distanceFromInfinite,
      InfiniteScroll.reloadY, JSNum.truthy, JSNum.add, JSNum.sub, JSNum.mul,
      JSNum.lt, JSNum.div100, c3CexEv]
    decide

/-- C3 (amended): a malformed threshold string (`parseFloat = NaN`) is
stored silently without failing.  Without a `'%'` character, `_thrPx`
becomes `NaN`, every crossing comparison is then false (`reloadY` and the
distance are `NaN`), and the trigger never fires on any subsequent sample
sequence.  With a `'%'` character, however, `_thrPc = NaN` is falsy, so the
pixel branch adds the cleared `_thrPx = 0` and the trigger can still fire
(it behaves as a zero-pixel threshold); triggering is only disabled in the
non-percent case. -/
theorem c3_malformed_no_percent (s : InfiniteScroll) (evs : List ScrollEv) :
    (s.setThreshold false JSNum.nan)._thrPx = JSNum.nan ∧
    (s.setThreshold false JSNum.nan)._thrPc = JSNum.num 0 ∧
    5 ∉ ((s.setThreshold false JSNum.nan).runScrolls evs).2 :=
  ⟨rfl, rfl, InfiniteScroll.runScrolls_nan_px _ evs rfl rfl⟩
